import Mathlib

/-!
Shallow embedding of the mayastor snapshot/clone engine
(`io-engine/src/lvs/lvol_snapshot.rs`) and the nexus child lifecycle
(`mayastor/src/bdev/nexus/nexus_child.rs`), together with theorems
checking the repository's specification against the code.

Blobstore-facade primitives (xattr get/set, blob destroy, registry
lookup, parent-chain iteration) are not part of the given sources; they
are modelled from the specification's abstract interface, as noted on
each such definition.
-/

/-! ### Nexus child state machine (`nexus_child.rs`) -/

/-- Fault reasons of a nexus child (`Reason` in `nexus_child.rs`). -/
inductive Reason
  | Unknown
  | OutOfSync
  | CantOpen
  | RebuildFailed
  | IoError
  | Rpc
deriving DecidableEq, Repr

/-- Child states (`ChildState` in `nexus_child.rs`). -/
inductive ChildState
  | Init
  | ConfigInvalid
  | Open
  | Closed
  | Faulted (r : Reason)
deriving DecidableEq, Repr

/-- Child-lifecycle errors (`ChildError` in `nexus_child.rs`); error
payloads that are opaque sources in Rust are dropped. -/
inductive ChildError
  | ChildNotOffline
  | ChildNotClosed
  | ChildFaulted
  | ChildTooSmall (child_size parent_size : Nat)
  | OpenChild
  | ClaimChild
  | ChildInaccessible
  | ChildInvalid
  | OpenWithoutBdev
  | HandleCreate
deriving DecidableEq, Repr

/-- A backing block device: its name and size in bytes. -/
structure BlockDev where
  devName : String
  sizeInBytes : Nat
deriving DecidableEq, Repr

/-- A nexus child. Descriptor, bdev handle and error-store presence are
modelled as booleans (the Rust fields are `Option` values whose payloads
are opaque handles). -/
structure NexusChild where
  childName : String
  parent : String
  bdev : Option BlockDev
  desc : Bool
  bdevHandle : Bool
  errStore : Bool
  state : ChildState
deriving DecidableEq, Repr

/-- External inputs of `NexusChild::open`: whether `Bdev::open_by_name`
succeeds, and whether the error store is enabled in the config. -/
structure OpenEnv where
  openByNameOk : Bool
  enableErrStore : Bool
deriving DecidableEq, Repr

/-- Outcome of `NexusChild::open`: a Rust panic (failed `unwrap` /
assert), success with the child name, or a `ChildError`. -/
inductive OpenOutcome
  | panics
  | ok (name : String)
  | err (e : ChildError)
deriving DecidableEq, Repr

/-- `NexusChild::new`. -/
def NexusChild.new (name parent : String) (bdev : Option BlockDev) : NexusChild :=
  { childName := name, parent := parent, bdev := bdev,
    desc := false, bdevHandle := false, errStore := false,
    state := ChildState.Init }

/-- `NexusChild::open`. A faulted child errors out first; a missing
backing device panics at the `unwrap`; a child smaller than the parent
becomes `ConfigInvalid` with `ChildTooSmall`; a failing backing open
becomes `Faulted(CantOpen)` with `OpenChild`; otherwise descriptor and
handle are acquired and the state becomes `Open`. -/
def openChild (env : OpenEnv) (c : NexusChild) (parentSize : Nat) :
    NexusChild × OpenOutcome :=
  match c.state with
  | ChildState.Faulted _ => (c, OpenOutcome.err ChildError.ChildFaulted)
  | _ =>
    match c.bdev with
    | none => (c, OpenOutcome.panics)
    | some bdev =>
      if parentSize > bdev.sizeInBytes then
        ({ c with state := ChildState.ConfigInvalid },
         OpenOutcome.err (ChildError.ChildTooSmall bdev.sizeInBytes parentSize))
      else if env.openByNameOk = false then
        ({ c with state := ChildState.Faulted Reason.CantOpen },
         OpenOutcome.err ChildError.OpenChild)
      else
        ({ c with
            bdevHandle := true,
            desc := true,
            errStore := if env.enableErrStore then true else c.errStore,
            state := ChildState.Open },
         OpenOutcome.ok c.childName)

/-- `NexusChild::_close`: release the bdev handle and the descriptor
(the bdev module release is an external side effect with no observable
field). -/
def closeInternal (c : NexusChild) : NexusChild :=
  { c with bdevHandle := false, desc := false }

/-- `NexusChild::fault`. The boolean records that
`save_state_change` (status-file persistence) was invoked. -/
def fault (c : NexusChild) (r : Reason) : NexusChild × Bool :=
  match r with
  | Reason.OutOfSync => ({ c with state := ChildState.Faulted Reason.OutOfSync }, true)
  | _ => ({ closeInternal c with state := ChildState.Faulted r }, true)

/-- `NexusChild::online`: run `open`, then unconditionally set the state
to `Faulted(OutOfSync)` and persist, returning `open`'s result. When
`open` panics, control never reaches the `set_state`. -/
def online (env : OpenEnv) (c : NexusChild) (parentSize : Nat) :
    NexusChild × OpenOutcome × Bool :=
  match openChild env c parentSize with
  | (c1, OpenOutcome.panics) => (c1, OpenOutcome.panics, false)
  | (c1, res) =>
    ({ c1 with state := ChildState.Faulted Reason.OutOfSync }, res, true)

/-- `NexusChild::is_accessible`. -/
def is_accessible (c : NexusChild) : Bool :=
  c.state == ChildState.Open || c.state == ChildState.Faulted Reason.OutOfSync

/-- `NexusChild::get_dev`: inaccessible children answer
`ChildInaccessible`; otherwise both bdev and handle must be present. -/
def get_dev (c : NexusChild) : Except ChildError BlockDev :=
  if is_accessible c = false then Except.error ChildError.ChildInaccessible
  else
    match c.bdev, c.bdevHandle with
    | some b, true => Except.ok b
    | _, _ => Except.error ChildError.ChildInvalid

/-! ### Snapshot/clone engine data model (`lvol_snapshot.rs`) -/

/-- The snapshot xattr enumeration (`SnapshotXattrs`). -/
inductive SnapXattr
  | TxId
  | EntityId
  | ParentId
  | SnapshotUuid
  | SnapshotCreateTime
  | DiscardedSnapshot
deriving DecidableEq, Repr

/-- Modelled from the spec: the exact on-disk xattr key of each
`SnapshotXattrs` variant (spec section 6); the enumeration itself lives
outside the given sources. -/
def SnapXattr.key : SnapXattr → String
  | SnapXattr.TxId => "org.openebs.mayastor.snapshot.tx_id"
  | SnapXattr.EntityId => "org.openebs.mayastor.snapshot.entity_id"
  | SnapXattr.ParentId => "org.openebs.mayastor.snapshot.parent_id"
  | SnapXattr.SnapshotUuid => "org.openebs.mayastor.snapshot.uuid"
  | SnapXattr.SnapshotCreateTime => "org.openebs.mayastor.snapshot.create_time"
  | SnapXattr.DiscardedSnapshot => "org.openebs.mayastor.snapshot.discarded"

/-- Modelled from the spec: the fixed iteration order of
`SnapshotXattrs::iter()` (spec section 6 requires a deterministic
order; the variants are listed in declaration order). -/
def snapXattrsAll : List SnapXattr :=
  [SnapXattr.TxId, SnapXattr.EntityId, SnapXattr.ParentId,
   SnapXattr.SnapshotUuid, SnapXattr.SnapshotCreateTime,
   SnapXattr.DiscardedSnapshot]

/-- `SnapshotParams` (core value object; field layout from the spec's
data model and the accessors used in `lvol_snapshot.rs`). -/
structure SnapshotParams where
  entity_id : Option String
  parent_id : Option String
  txn_id : Option String
  snapName : Option String
  snapshot_uuid : Option String
  create_time : Option String
  discarded : Bool
deriving DecidableEq, Repr

/-- `SnapshotParams::default()`. -/
def defaultSnapshotParams : SnapshotParams :=
  { entity_id := none, parent_id := none, txn_id := none, snapName := none,
    snapshot_uuid := none, create_time := none, discarded := false }

/-- One lvol/blob of the device registry. `parentBlob` is the
blobstore's back-pointer chain (identified by the owning lvol's uuid);
`sourceSnapUuid` is what `is_snapshot_clone()` reports: the recorded
source-snapshot uuid of a clone, `none` for non-clones (modelled from
the spec, the accessor lives outside the given sources). -/
structure Blob where
  uuid : String
  blobName : String
  driver : String
  isSnapshot : Bool
  xattrs : List (String × String)
  allocatedBytes : Nat
  parentBlob : Option String
  sourceSnapUuid : Option String
deriving DecidableEq, Repr

/-- The process-wide state: the bdev registry, the uuids whose
used-clusters cache has been reset (most recent first), and the log of
xattr writes persisted with `sync = true`. -/
structure World where
  blobs : List Blob
  invalidated : List String
  syncLog : List (String × String × String)
deriving DecidableEq, Repr

/-- Association-list lookup, first match wins (xattr read). -/
def lookupAssoc : List (String × String) → String → Option String
  | [], _ => none
  | (k, v) :: rest, key => if k == key then some v else lookupAssoc rest key

/-- Association-list update: replace the first binding of `key`, or
append a new one. -/
def setAssoc : List (String × String) → String → String → List (String × String)
  | [], key, val => [(key, val)]
  | (k, v) :: rest, key, val =>
    if k == key then (key, val) :: rest else (k, v) :: setAssoc rest key val

/-- Modelled from the spec: `get_xattr(blob, key)` of the blobstore
facade (`Lvol::get_blob_xattr`), `None` if absent. -/
def getBlobXattr (b : Blob) (key : String) : Option String :=
  lookupAssoc b.xattrs key

/-- First registry entry with the given uuid. -/
def findByUuid : List Blob → String → Option Blob
  | [], _ => none
  | b :: rest, u => if b.uuid == u then some b else findByUuid rest u

/-- Modelled from the spec: `lookup_by_uuid(uuid)` of the device
registry (`UntypedBdev::lookup_by_uuid_str`). -/
def lookupBlob (w : World) (uuid : String) : Option Blob :=
  findByUuid w.blobs uuid

/-- The lvol devices: all bdevs whose driver is "lvol"
(`bdev.into_iter().filter(|b| b.driver() == "lvol")`). -/
def lvolDevices (w : World) : List Blob :=
  w.blobs.filter (fun b => b.driver == "lvol")

/-- Modelled from the spec: `is_snapshot_clone()` returns the source
snapshot recorded in the clone's `SourceUuid` xattr; we return that
recorded uuid directly. -/
def isSnapshotClone (b : Blob) : Option String :=
  b.sourceSnapUuid

/-- `Rust str::parse::<bool>()` followed by `unwrap_or_default()`:
exactly "true" parses to `true`; everything else yields `false`. -/
def parseBoolLossy (s : String) : Bool :=
  s == "true"

/-- `list_clones_by_snapshot_uuid`: the lvol devices whose
`is_snapshot_clone()` source equals this snapshot's uuid. -/
def list_clones_by_snapshot_uuid (w : World) (self : Blob) : List Blob :=
  (lvolDevices w).filter (fun b =>
    match isSnapshotClone b with
    | some u => u == self.uuid
    | none => false)

/-- `is_discarded_snapshot`. -/
def is_discarded_snapshot (b : Blob) : Bool :=
  parseBoolLossy ((getBlobXattr b SnapXattr.DiscardedSnapshot.key).getD "")

/-- `VolumeSnapshotDescriptor` as built by `snapshot_descriptor`. -/
structure VolumeSnapshotDescriptor where
  snapshot_lvol : Blob
  parent_uuid : String
  allocatedBytes : Nat
  params : SnapshotParams
  num_clones : Nat
  valid : Bool
deriving DecidableEq, Repr

/-- Modelled from the spec: the descriptor's recorded source uuid used
by `list_snapshot_by_source_uuid` to bound the chain walk — the
recorded parent uuid of the descriptor. -/
def VolumeSnapshotDescriptor.source_uuid (d : VolumeSnapshotDescriptor) : String :=
  d.parent_uuid

/-- Record a single xattr value into `SnapshotParams`
(the `set_*` calls inside `snapshot_descriptor`). -/
def applyAttr (p : SnapshotParams) (a : SnapXattr) (v : String) : SnapshotParams :=
  match a with
  | SnapXattr.TxId => { p with txn_id := some v }
  | SnapXattr.EntityId => { p with entity_id := some v }
  | SnapXattr.ParentId => { p with parent_id := some v }
  | SnapXattr.SnapshotUuid => { p with snapshot_uuid := some v }
  | SnapXattr.SnapshotCreateTime => { p with create_time := some v }
  | SnapXattr.DiscardedSnapshot => { p with discarded := parseBoolLossy v }

/-- The xattr-collection loop of `snapshot_descriptor`: a missing xattr
clears the valid flag and continues; a `ParentId` mismatch against a
given parent filter aborts with `None`. -/
def collectParams (self : Blob) (parent : Option Blob) :
    List SnapXattr → Bool → SnapshotParams → Option (Bool × SnapshotParams)
  | [], valid, p => some (valid, p)
  | a :: rest, valid, p =>
    match getBlobXattr self a.key with
    | none => collectParams self parent rest false p
    | some v =>
      match a, parent with
      | SnapXattr.ParentId, some parentLvol =>
        if v == parentLvol.uuid then
          collectParams self parent rest valid (applyAttr p a v)
        else
          none
      | _, _ => collectParams self parent rest valid (applyAttr p a v)

/-- `snapshot_descriptor`: read all snapshot xattrs, then fill in the
name, resolve the parent uuid through the registry when no parent
filter was supplied, and count the live clones. -/
def snapshot_descriptor (w : World) (self : Blob) (parent : Option Blob) :
    Option VolumeSnapshotDescriptor :=
  match collectParams self parent snapXattrsAll true defaultSnapshotParams with
  | none => none
  | some (valid, p0) =>
    let p : SnapshotParams := { p0 with snapName := some self.blobName }
    let parentUuid : String :=
      match parent with
      | some parentLvol => parentLvol.uuid
      | none =>
        match (lookupBlob w ((p.parent_id).getD "")).bind
            (fun b => if b.driver == "lvol" then some b else none) with
        | some parentLvol => parentLvol.uuid
        | none => ""
    some { snapshot_lvol := self,
           parent_uuid := parentUuid,
           allocatedBytes := self.allocatedBytes,
           params := p,
           num_clones := (list_clones_by_snapshot_uuid w self).length,
           valid := valid }

/-! ### Parent-chain iterator and listing -/

/-- `LvolSnapshotIter`: the current blob of the walk (`none` models the
null pointer) and the lvol it belongs to. -/
structure SnapIter where
  innerBlob : Option String
  innerLvol : Blob
deriving DecidableEq, Repr

/-- `LvolSnapshotIter::new`: modelled from the spec, `bs_iter_first`
starts the walk at the volume's own blob. -/
def snapIterNew (lvol : Blob) : SnapIter :=
  { innerBlob := some lvol.uuid, innerLvol := lvol }

/-- Modelled from the spec: `bs_iter_parent` follows the blobstore's
native back-pointer from the given blob to its parent blob. -/
def bsIterParent (w : World) (blobUuid : String) : Option String :=
  (lookupBlob w blobUuid).bind (fun b => b.parentBlob)

/-- One `parent()` step of `LvolSnapshotIter`: move to the parent blob,
resolve it to a snapshot lvol through its `SnapshotUuid` xattr and the
registry, advance the iterator state, and return the parent's
descriptor. Any failure stops the iteration. -/
def iterParent (w : World) (it : SnapIter) :
    Option (VolumeSnapshotDescriptor × SnapIter) :=
  match it.innerBlob with
  | none => none
  | some cur =>
    match bsIterParent w cur with
    | none => none
    | some parentUuid =>
      match lookupBlob w parentUuid with
      | none => none
      | some parentBlob =>
        match getBlobXattr parentBlob SnapXattr.SnapshotUuid.key with
        | none => none
        | some uuid =>
          match (lookupBlob w uuid).bind
              (fun b => if b.driver == "lvol" then some b else none) with
          | none => none
          | some snapLvol =>
            (snapshot_descriptor w snapLvol none).map
              (fun d => (d, { innerBlob := some parentUuid, innerLvol := snapLvol }))

/-- The while-let loop of `list_snapshot_by_source_uuid`: iterate the
chain, stopping at the first descriptor whose recorded source uuid
differs from the volume's uuid. Fuel bounds the walk (the Rust loop
relies on the chain being finite). -/
def listSnapLoop (w : World) (selfUuid : String) :
    Nat → SnapIter → List VolumeSnapshotDescriptor
  | 0, _ => []
  | Nat.succ n, it =>
    match iterParent w it with
    | none => []
    | some (d, it') =>
      if d.source_uuid == selfUuid then d :: listSnapLoop w selfUuid n it'
      else []

/-- `list_snapshot_by_source_uuid`. -/
def list_snapshot_by_source_uuid (w : World) (self : Blob) (fuel : Nat) :
    List VolumeSnapshotDescriptor :=
  listSnapLoop w self.uuid fuel (snapIterNew self)

/-- Modelled from the spec: the full ancestor chain of descriptors of a
volume, in back-pointer (most-recent-first) order, with the same fuel
bound — the reference the chain listing is compared against. -/
def snapshotChainSpec (w : World) : Nat → SnapIter → List VolumeSnapshotDescriptor
  | 0, _ => []
  | Nat.succ n, it =>
    match iterParent w it with
    | none => []
    | some (d, it') => d :: snapshotChainSpec w n it'

/-- `list_all_snapshots`: every lvol device that is a snapshot and
yields a descriptor (optionally filtered by a parent volume). -/
def list_all_snapshots (w : World) (parent : Option Blob) :
    List VolumeSnapshotDescriptor :=
  (lvolDevices w).filterMap (fun b =>
    if b.isSnapshot then snapshot_descriptor w b parent else none)

/-! ### Destroy, cache invalidation and the discarded-snapshot sweep -/

/-- What `destroy_snapshot` did: physically destroyed the blob, or
marked it discarded. -/
inductive DestroySnapAction
  | destroyedBlob
  | discardedMarked
deriving DecidableEq, Repr

/-- Modelled from the spec: `destroy_blob` removes the blob (and its
bdev) from the registry. -/
def destroyLvol (w : World) (uuid : String) : World :=
  { w with blobs := w.blobs.filter (fun b => !(b.uuid == uuid)) }

/-- Modelled from the spec: `set_xattr(blob, key, value, sync)` of the
facade (`Lvol::set_blob_attr`); a sync write is recorded in the
durable-write log. -/
def set_blob_attr (w : World) (uuid key val : String) (sync : Bool) : World :=
  { w with
    blobs := w.blobs.map (fun b =>
      if b.uuid == uuid then { b with xattrs := setAssoc b.xattrs key val } else b),
    syncLog := if sync then (uuid, key, val) :: w.syncLog else w.syncLog }

/-- `destroy_snapshot`: with no live clones the blob is destroyed;
otherwise the `DiscardedSnapshot` xattr is set to "true" with a sync
write and the blob is kept. -/
def destroy_snapshot (w : World) (self : Blob) : World × DestroySnapAction :=
  if (list_clones_by_snapshot_uuid w self).isEmpty then
    (destroyLvol w self.uuid, DestroySnapAction.destroyedBlob)
  else
    (set_blob_attr w self.uuid SnapXattr.DiscardedSnapshot.key "true" true,
     DestroySnapAction.discardedMarked)

/-- `spdk_blob_reset_used_clusters_cache` on one blob. -/
def resetCache (w : World) (uuid : String) : World :=
  { w with invalidated := uuid :: w.invalidated }

/-- The loop of `reset_snapshot_tree_usage_cache_with_parent_uuid`:
walk the snapshot chain, resetting each chain snapshot's cache and the
caches of all its clones. -/
def resetTreeParentLoop (w : World) : Nat → SnapIter → World
  | 0, _ => w
  | Nat.succ n, it =>
    match iterParent w it with
    | none => w
    | some (d, it') =>
      let w1 := resetCache w d.snapshot_lvol.uuid
      let w2 := (list_clones_by_snapshot_uuid w1 d.snapshot_lvol).foldl
        (fun acc c => resetCache acc c.uuid) w1
      resetTreeParentLoop w2 n it'

/-- `reset_snapshot_tree_usage_cache_with_parent_uuid`. -/
def reset_snapshot_tree_usage_cache_with_parent_uuid
    (fuel : Nat) (w : World) (lvol : Blob) : World :=
  resetTreeParentLoop w fuel (snapIterNew lvol)

/-- The initial sweep set of the wildcard fallback: the snapshots kept
by the `filter_map` closure. Note the source reads the `ParentId`
xattr of the originating `lvol` inside the closure, not of the
candidate `l` it binds. -/
def wildcardInitialSnapshots (w : World) (lvol : Blob)
    (snapshotParentUuid : String) : List Blob :=
  ((list_all_snapshots w none).map (fun d => d.snapshot_lvol)).filterMap
    (fun l =>
      match getBlobXattr lvol SnapXattr.ParentId.key with
      | some uuid => if uuid == snapshotParentUuid then some l else none
      | none => none)

/-- `Vec::pop`: remove and return the last element. -/
def popLast (l : List Blob) : Option (Blob × List Blob) :=
  match l.getLast? with
  | none => none
  | some x => some (x, l.dropLast)

/-- One iteration of the wildcard while-loop: pop a snapshot, reset its
cache and gather its clones; then pop a clone, reset its cache and
gather its own snapshots. -/
def wildcardStep (w : World) (snaps clones : List Blob) :
    World × List Blob × List Blob :=
  let t1 : World × List Blob × List Blob :=
    match popLast snaps with
    | none => (w, snaps, clones)
    | some (s, rest) =>
      let w1 := resetCache w s.uuid
      (w1, rest, clones ++ list_clones_by_snapshot_uuid w1 s)
  match t1 with
  | (w1, snaps1, clones1) =>
    match popLast clones1 with
    | none => (w1, snaps1, clones1)
    | some (c, rest) =>
      let w2 := resetCache w1 c.uuid
      (w2, snaps1 ++ (list_all_snapshots w2 (some c)).map (fun d => d.snapshot_lvol),
       rest)

/-- The wildcard while-loop, fuel-bounded (the source keeps no visited
set; the graph's acyclicity bounds it in practice). -/
def wildcardLoop : Nat → World → List Blob → List Blob → World
  | 0, w, _, _ => w
  | Nat.succ n, w, snaps, clones =>
    if snaps.isEmpty && clones.isEmpty then w
    else
      match wildcardStep w snaps clones with
      | (w', s', c') => wildcardLoop n w' s' c'

/-- `reset_snapshot_tree_usage_cache_with_wildcard`. -/
def reset_snapshot_tree_usage_cache_with_wildcard
    (fuel : Nat) (w : World) (lvol : Blob) (snapshotParentUuid : String) : World :=
  wildcardLoop fuel w (wildcardInitialSnapshots w lvol snapshotParentUuid) []

/-- `reset_snapshot_tree_usage_cache`: resolve the snapshot's parent
via its `ParentId` xattr; if the parent volume still exists reset its
cache and walk its chain, otherwise fall back to the wildcard sweep. -/
def reset_snapshot_tree_usage_cache
    (fuel : Nat) (w : World) (self : Blob) (isReplica : Bool) : World :=
  if isReplica then
    reset_snapshot_tree_usage_cache_with_parent_uuid fuel w self
  else
    match getBlobXattr self SnapXattr.ParentId.key with
    | none => w
    | some parentUuid =>
      match lookupBlob w parentUuid with
      | some bdev =>
        match (if bdev.driver == "lvol" then some bdev else none) with
        | some parentLvol =>
          let w1 := resetCache w parentLvol.uuid
          reset_snapshot_tree_usage_cache_with_parent_uuid fuel w1 parentLvol
        | none => w
      | none =>
        reset_snapshot_tree_usage_cache_with_wildcard fuel w self parentUuid

/-- Environment of the sweep: whether the (facade-level) destroy of a
given blob succeeds; a failure is logged by the source and ignored. -/
structure SweepEnv where
  destroyOk : String → Bool

/-- The selection of `destroy_pending_discarded_snapshot`: lvol devices
that are snapshots, marked discarded, and have no live clones. -/
def snapListOf (w : World) : List Blob :=
  (lvolDevices w).filter (fun b =>
    b.isSnapshot && is_discarded_snapshot b
      && (list_clones_by_snapshot_uuid w b).isEmpty)

/-- `destroy_pending_discarded_snapshot`: select, reset each selected
snapshot's tree cache, then destroy all selected snapshots, ignoring
individual destroy failures. The function is total (the source returns
unit and only logs per-snapshot failures). -/
def destroy_pending_discarded_snapshot
    (fuel : Nat) (env : SweepEnv) (w : World) : World :=
  let snaps := snapListOf w
  let w1 := snaps.foldl
    (fun acc s => reset_snapshot_tree_usage_cache fuel acc s false) w
  snaps.foldl
    (fun acc s => if env.destroyOk s.uuid then destroyLvol acc s.uuid else acc) w1

/-! ### Pure invalidation traces of the cache resets

The reset functions read the world only through its registry and write
only the invalidated-cache log. The following functions compute, from
the registry alone, the list of uuids (newest first) each reset
invalidates; they let the sweep's cache-reset effect be stated
exactly. -/

/-- A world holding only a registry (the view the resets read). -/
def worldOf (blobs : List Blob) : World :=
  { blobs := blobs, invalidated := [], syncLog := [] }

/-- Uuids (newest first) invalidated by the chain-walk cache reset. -/
def resetTreeParentLoopInv (blobs : List Blob) : Nat → SnapIter → List String
  | 0, _ => []
  | Nat.succ n, it =>
    match iterParent (worldOf blobs) it with
    | none => []
    | some (d, it') =>
      resetTreeParentLoopInv blobs n it'
        ++ ((list_clones_by_snapshot_uuid (worldOf blobs) d.snapshot_lvol).map
            (fun c => c.uuid)).reverse
        ++ [d.snapshot_lvol.uuid]

/-- One wildcard step: uuids it invalidates (newest first) plus the
successor work lists, from the registry alone. -/
def wildcardStepInv (blobs : List Blob) (snaps clones : List Blob) :
    List String × List Blob × List Blob :=
  let t1 : List String × List Blob × List Blob :=
    match popLast snaps with
    | none => ([], snaps, clones)
    | some (s, rest) =>
      ([s.uuid], rest, clones ++ list_clones_by_snapshot_uuid (worldOf blobs) s)
  match t1 with
  | (inv1, snaps1, clones1) =>
    match popLast clones1 with
    | none => (inv1, snaps1, clones1)
    | some (c, rest) =>
      (c.uuid :: inv1,
       snaps1 ++ (list_all_snapshots (worldOf blobs) (some c)).map
         (fun d => d.snapshot_lvol),
       rest)

/-- Uuids (newest first) invalidated by the wildcard loop. -/
def wildcardLoopInv (blobs : List Blob) : Nat → List Blob → List Blob → List String
  | 0, _, _ => []
  | Nat.succ n, snaps, clones =>
    if snaps.isEmpty && clones.isEmpty then []
    else
      match wildcardStepInv blobs snaps clones with
      | (inv1, s', c') => wildcardLoopInv blobs n s' c' ++ inv1

/-- Uuids (newest first) whose caches one tree reset invalidates. -/
def resetTreeInv (blobs : List Blob) (fuel : Nat) (self : Blob)
    (isReplica : Bool) : List String :=
  if isReplica then resetTreeParentLoopInv blobs fuel (snapIterNew self)
  else
    match getBlobXattr self SnapXattr.ParentId.key with
    | none => []
    | some parentUuid =>
      match findByUuid blobs parentUuid with
      | some bdev =>
        match (if bdev.driver == "lvol" then some bdev else none) with
        | some parentLvol =>
          resetTreeParentLoopInv blobs fuel (snapIterNew parentLvol)
            ++ [parentLvol.uuid]
        | none => []
      | none =>
        wildcardLoopInv blobs fuel
          (wildcardInitialSnapshots (worldOf blobs) self parentUuid) []

/-- Uuids (newest first) invalidated by resetting, in order, the trees
of a list of snapshots. -/
def treeResetFoldInv (blobs : List Blob) (fuel : Nat) : List Blob → List String
  | [] => []
  | s :: rest =>
    treeResetFoldInv blobs fuel rest ++ resetTreeInv blobs fuel s false

/-! ### `prepare_snap_config` and `prepare_snapshot_xattrs` -/

/-- `LvsError` variants relevant to snapshot configuration. -/
inductive LvsErr
  | SnapshotConfigFailed (name msg : String)
deriving DecidableEq, Repr

/-- `prepare_snap_config`: empty `snap_name`, `entity_id` or `txn_id`
fail construction; an empty `snap_uuid` merely records `none` and
construction still succeeds. `now` stands for `Utc::now()`. -/
def prepare_snap_config (selfUuid snapName entityId txnId snapUuid now : String) :
    Option SnapshotParams :=
  if snapName.isEmpty then none
  else if entityId.isEmpty then none
  else if txnId.isEmpty then none
  else
    some { entity_id := some entityId,
           parent_id := some selfUuid,
           txn_id := some txnId,
           snapName := some snapName,
           snapshot_uuid := if snapUuid.isEmpty then none else some snapUuid,
           create_time := some now,
           discarded := false }

/-- `bool::to_string()`. -/
def boolToString (b : Bool) : String :=
  if b then "true" else "false"

/-- The loop of `prepare_snapshot_xattrs`: build the (name, value)
xattr descriptor list in enumeration order; a missing required field is
a field-specific `SnapshotConfigFailed`. -/
def prepareXattrLoop (bdevName : String) (params : SnapshotParams) :
    List SnapXattr → Except LvsErr (List (String × String))
  | [] => Except.ok []
  | a :: rest =>
    let av : Except LvsErr String :=
      match a with
      | SnapXattr.TxId =>
        match params.txn_id with
        | some v => Except.ok v
        | none => Except.error (LvsErr.SnapshotConfigFailed bdevName "txn id not provided")
      | SnapXattr.EntityId =>
        match params.entity_id with
        | some v => Except.ok v
        | none => Except.error (LvsErr.SnapshotConfigFailed bdevName "entity id not provided")
      | SnapXattr.ParentId =>
        match params.parent_id with
        | some v => Except.ok v
        | none => Except.error (LvsErr.SnapshotConfigFailed bdevName "parent id not provided")
      | SnapXattr.SnapshotUuid =>
        match params.snapshot_uuid with
        | some v => Except.ok v
        | none => Except.error (LvsErr.SnapshotConfigFailed bdevName "snapshot_uuid not provided")
      | SnapXattr.SnapshotCreateTime =>
        match params.create_time with
        | some v => Except.ok v
        | none => Except.error (LvsErr.SnapshotConfigFailed bdevName "create_time not provided")
      | SnapXattr.DiscardedSnapshot => Except.ok (boolToString params.discarded)
    match av with
    | Except.error e => Except.error e
    | Except.ok v =>
      match prepareXattrLoop bdevName params rest with
      | Except.error e => Except.error e
      | Except.ok tail => Except.ok ((a.key, v) :: tail)

/-- `prepare_snapshot_xattrs`. -/
def prepare_snapshot_xattrs (bdevName : String) (params : SnapshotParams) :
    Except LvsErr (List (String × String)) :=
  prepareXattrLoop bdevName params snapXattrsAll

/-! ### Concrete instances used to exercise the claims -/

/-- A 1-byte backing device. -/
def bdevSmall : BlockDev := { devName := "bd0", sizeInBytes := 1 }

/-- A concrete open environment. -/
def envC : OpenEnv := { openByNameOk := true, enableErrStore := false }

/-- A child already faulted with an I/O error, 1-byte backing device. -/
def childFaulted : NexusChild :=
  { childName := "c-f", parent := "nx", bdev := some bdevSmall,
    desc := false, bdevHandle := false, errStore := false,
    state := ChildState.Faulted Reason.IoError }

/-- A closed child with a 1-byte backing device. -/
def childClosedSmall : NexusChild :=
  { childName := "c-s", parent := "nx", bdev := some bdevSmall,
    desc := false, bdevHandle := false, errStore := false,
    state := ChildState.Closed }

/-- An open child holding descriptor and handle. -/
def childOpen : NexusChild :=
  { childName := "c-o", parent := "nx", bdev := some bdevSmall,
    desc := true, bdevHandle := true, errStore := false,
    state := ChildState.Open }

/-- A full set of snapshot xattrs for the chain example. -/
def chainSnapXattrs (parentId snapUuid : String) : List (String × String) :=
  [(SnapXattr.TxId.key, "t1"), (SnapXattr.EntityId.key, "e1"),
   (SnapXattr.ParentId.key, parentId), (SnapXattr.SnapshotUuid.key, snapUuid),
   (SnapXattr.SnapshotCreateTime.key, "2024-01-01T00:00:00Z"),
   (SnapXattr.DiscardedSnapshot.key, "false")]

/-- Chain example: the volume v1 whose blob's parent pointer names the
most recent snapshot s3. -/
def v1Blob : Blob :=
  { uuid := "v1", blobName := "vol1", driver := "lvol", isSnapshot := false,
    xattrs := [], allocatedBytes := 16, parentBlob := some "s3",
    sourceSnapUuid := none }

/-- Chain example: the oldest snapshot s1. -/
def s1Blob : Blob :=
  { uuid := "s1", blobName := "snap1", driver := "lvol", isSnapshot := true,
    xattrs := chainSnapXattrs "v1" "s1", allocatedBytes := 1,
    parentBlob := none, sourceSnapUuid := none }

/-- Chain example: s2, created after s1. -/
def s2Blob : Blob :=
  { uuid := "s2", blobName := "snap2", driver := "lvol", isSnapshot := true,
    xattrs := chainSnapXattrs "v1" "s2", allocatedBytes := 2,
    parentBlob := some "s1", sourceSnapUuid := none }

/-- Chain example: s3, the most recent snapshot. -/
def s3Blob : Blob :=
  { uuid := "s3", blobName := "snap3", driver := "lvol", isSnapshot := true,
    xattrs := chainSnapXattrs "v1" "s3", allocatedBytes := 3,
    parentBlob := some "s2", sourceSnapUuid := none }

/-- Chain example world: v1 with snapshots s1, s2, s3 created in that
order. -/
def wChain : World :=
  { blobs := [v1Blob, s3Blob, s2Blob, s1Blob], invalidated := [], syncLog := [] }

/-- Wildcard example: the originating snapshot whose `ParentId` is the
vanished volume "p". -/
def sOrigBlob : Blob :=
  { uuid := "s0", blobName := "snap0", driver := "lvol", isSnapshot := true,
    xattrs := [(SnapXattr.ParentId.key, "p")], allocatedBytes := 0,
    parentBlob := none, sourceSnapUuid := none }

/-- Wildcard example: an unrelated snapshot whose own `ParentId` is
"q", not "p". -/
def sOtherBlob : Blob :=
  { uuid := "s9", blobName := "snap9", driver := "lvol", isSnapshot := true,
    xattrs := [(SnapXattr.ParentId.key, "q")], allocatedBytes := 0,
    parentBlob := none, sourceSnapUuid := none }

/-- Wildcard example world: neither "p" nor "q" exists any more. -/
def wWild : World :=
  { blobs := [sOrigBlob, sOtherBlob], invalidated := [], syncLog := [] }

/-- Destroy example: a snapshot with one live clone. -/
def snapABlob : Blob :=
  { uuid := "sa", blobName := "snapA", driver := "lvol", isSnapshot := true,
    xattrs := [(SnapXattr.DiscardedSnapshot.key, "false")], allocatedBytes := 4,
    parentBlob := none, sourceSnapUuid := none }

/-- Destroy example: the live clone of `snapABlob`. -/
def cloneABlob : Blob :=
  { uuid := "ca", blobName := "cloneA", driver := "lvol", isSnapshot := false,
    xattrs := [], allocatedBytes := 4, parentBlob := none,
    sourceSnapUuid := some "sa" }

/-- Destroy example world with the pinning clone present. -/
def wClone : World :=
  { blobs := [snapABlob, cloneABlob], invalidated := [], syncLog := [] }

/-- Destroy example world with no clones. -/
def wLone : World :=
  { blobs := [snapABlob], invalidated := [], syncLog := [] }

/-- Sweep example: a discarded snapshot with no clones, whose parent
volume "vp" still exists. -/
def snapDBlob : Blob :=
  { uuid := "sd", blobName := "snapD", driver := "lvol", isSnapshot := true,
    xattrs := [(SnapXattr.DiscardedSnapshot.key, "true"),
               (SnapXattr.ParentId.key, "vp")],
    allocatedBytes := 5, parentBlob := none, sourceSnapUuid := none }

/-- Sweep example: the parent volume of `snapDBlob`. -/
def vpBlob : Blob :=
  { uuid := "vp", blobName := "volP", driver := "lvol", isSnapshot := false,
    xattrs := [], allocatedBytes := 9, parentBlob := none,
    sourceSnapUuid := none }

/-- Sweep example world. -/
def wDisc : World :=
  { blobs := [snapDBlob, vpBlob], invalidated := [], syncLog := [] }

/-- A sweep environment where every destroy succeeds. -/
def envAllOk : SweepEnv := { destroyOk := fun _ => true }

/-! ### Theorems -/

/-- Claim C2: a nexus child is accessible iff its state is `Open` or
`Faulted(OutOfSync)`; in every other state `get_dev` answers the
`ChildInaccessible` error synchronously, returning no device
references. -/
theorem child_accessibility_gating (c : NexusChild) :
    (is_accessible c = true ↔
      c.state = ChildState.Open ∨ c.state = ChildState.Faulted Reason.OutOfSync)
    ∧ (c.state ≠ ChildState.Open →
        c.state ≠ ChildState.Faulted Reason.OutOfSync →
        get_dev c = Except.error ChildError.ChildInaccessible) := by
  constructor
  · simp [is_accessible]
  · intro h1 h2
    have hacc : is_accessible c = false := by
      simp [is_accessible, h1, h2]
    simp [get_dev, hacc]

/-- Claim C2 witness: a closed child is inaccessible and `get_dev`
answers `ChildInaccessible`. -/
theorem child_accessibility_gating_witness :
    get_dev childClosedSmall = Except.error ChildError.ChildInaccessible :=
  (child_accessibility_gating childClosedSmall).2 (by decide) (by decide)

/-- Claim C8: `fault(OutOfSync)` only sets the state, keeping
descriptor and handle, and the child stays accessible; `fault` with any
other reason first closes (dropping descriptor and handle) and then
sets the state, leaving the child inaccessible; both persist the state
change. -/
theorem child_fault_frame (c : NexusChild) (r : Reason) :
    ((fault c Reason.OutOfSync).1 =
        { c with state := ChildState.Faulted Reason.OutOfSync }
      ∧ is_accessible (fault c Reason.OutOfSync).1 = true
      ∧ (fault c Reason.OutOfSync).2 = true)
    ∧ (r ≠ Reason.OutOfSync →
        (fault c r).1 =
          { c with desc := false, bdevHandle := false,
                   state := ChildState.Faulted r }
        ∧ is_accessible (fault c r).1 = false
        ∧ (fault c r).2 = true) := by
  constructor
  · exact ⟨rfl, rfl, rfl⟩
  · intro h
    cases r
    case OutOfSync => exact absurd rfl h
    all_goals exact ⟨rfl, rfl, rfl⟩

/-- Claim C8 witness: faulting an open child with `IoError` drops
descriptor and handle and makes it inaccessible. -/
theorem child_fault_frame_witness :
    (fault childOpen Reason.IoError).1 =
      { childOpen with desc := false, bdevHandle := false,
                       state := ChildState.Faulted Reason.IoError }
    ∧ is_accessible (fault childOpen Reason.IoError).1 = false :=
  ⟨((child_fault_frame childOpen Reason.IoError).2 (by decide)).1,
   ((child_fault_frame childOpen Reason.IoError).2 (by decide)).2.1⟩

/-- Claim C9 counterexample: on a child already faulted (IoError) whose
backing device (1 byte) is smaller than the parent (2 bytes), `open`
returns `ChildFaulted` and leaves the state faulted — it does not
transition to `ConfigInvalid` and does not return `ChildTooSmall` as
the claim states for every child with a backing device. -/
theorem child_open_too_small_counterexample :
    (openChild envC childFaulted 2).2 = OpenOutcome.err ChildError.ChildFaulted
    ∧ (openChild envC childFaulted 2).1.state ≠ ChildState.ConfigInvalid
    ∧ (openChild envC childFaulted 2).2 ≠
        OpenOutcome.err (ChildError.ChildTooSmall 1 2) := by
  decide

/-- Claim C9 (amended): for every non-faulted child with a backing
device smaller than the parent, `open` transitions to `ConfigInvalid`
and returns `ChildTooSmall` carrying both sizes, acquiring neither
descriptor nor handle (all other fields unchanged). -/
theorem child_open_too_small (env : OpenEnv) (c : NexusChild) (b : BlockDev)
    (parentSize : Nat) (hb : c.bdev = some b) (hsz : b.sizeInBytes < parentSize)
    (hnf : ∀ r, c.state ≠ ChildState.Faulted r) :
    openChild env c parentSize =
      ({ c with state := ChildState.ConfigInvalid },
       OpenOutcome.err (ChildError.ChildTooSmall b.sizeInBytes parentSize)) := by
  obtain ⟨nm, pr, bd, dc, hd, er, st⟩ := c
  simp only at hb
  subst hb
  cases st
  case Faulted r => exact absurd rfl (hnf r)
  all_goals simp [openChild, hsz]

/-- Claim C9 witness: opening a closed child with a 1-byte device
against a 2-byte parent yields `ConfigInvalid` and
`ChildTooSmall{1, 2}`. -/
theorem child_open_too_small_witness :
    openChild envC childClosedSmall 2 =
      ({ childClosedSmall with state := ChildState.ConfigInvalid },
       OpenOutcome.err (ChildError.ChildTooSmall 1 2)) :=
  child_open_too_small envC childClosedSmall bdevSmall 2 rfl (by decide)
    (by intro r; cases r <;> decide)

/-- Claim C10: whenever `online` returns (that is, the inner `open` did
not panic), the child's state is `Faulted(OutOfSync)` — even when
`open` failed — while `open`'s own result is passed through to the
caller, and the state change is persisted. -/
theorem child_online_forces_out_of_sync (env : OpenEnv) (c : NexusChild)
    (parentSize : Nat)
    (h : (online env c parentSize).2.1 ≠ OpenOutcome.panics) :
    (online env c parentSize).1.state = ChildState.Faulted Reason.OutOfSync
    ∧ (online env c parentSize).2.1 = (openChild env c parentSize).2
    ∧ (online env c parentSize).2.2 = true := by
  rcases hoc : openChild env c parentSize with ⟨c1, res⟩
  cases res <;> simp_all [online, hoc]

/-- Claim C10 witness: onlining a closed child that is too small makes
`open` fail with `ChildTooSmall`, yet the resulting state is
`Faulted(OutOfSync)` and the error is returned. -/
theorem child_online_forces_out_of_sync_witness :
    (online envC childClosedSmall 2).1.state = ChildState.Faulted Reason.OutOfSync
    ∧ (online envC childClosedSmall 2).2.1 =
        OpenOutcome.err (ChildError.ChildTooSmall 1 2) := by
  have h := child_online_forces_out_of_sync envC childClosedSmall 2 (by decide)
  exact ⟨h.1, by decide⟩

/-- Claim C4: the chain listing equals the maximal prefix of the
ancestor chain whose recorded source uuid is the volume's uuid; on the
example world with snapshots s1, s2, s3 created in that order, listing
from v1 returns them most-recent first: [s3, s2, s1]. -/
theorem snapshot_listing_chain_front :
    (∀ (w : World) (u : String) (fuel : Nat) (it : SnapIter),
        listSnapLoop w u fuel it =
          (snapshotChainSpec w fuel it).takeWhile (fun d => d.source_uuid == u))
    ∧ (list_snapshot_by_source_uuid wChain v1Blob 8).map
        (fun d => d.snapshot_lvol.uuid) = ["s3", "s2", "s1"] := by
  constructor
  · intro w u fuel
    induction fuel with
    | zero => intro it; rfl
    | succ n ih =>
      intro it
      simp only [listSnapLoop, snapshotChainSpec]
      cases hstep : iterParent w it with
      | none => simp
      | some p =>
        rcases p with ⟨d, it'⟩
        cases hb : (d.source_uuid == u) with
        | true => simp [hb, List.takeWhile_cons, ih]
        | false => simp [hb, List.takeWhile_cons]
  · decide

/-- Separates the xattr-collection loop of `snapshot_descriptor`: with
no parent filter it always succeeds, and the resulting flag is the
incoming flag conjoined with the presence of every xattr. -/
theorem collectParams_none_total (self : Blob) :
    ∀ (l : List SnapXattr) (valid : Bool) (p : SnapshotParams),
      ∃ q, collectParams self none l valid p =
        some (valid && l.all (fun a => (getBlobXattr self a.key).isSome), q) := by
  intro l
  induction l with
  | nil => intro valid p; exact ⟨p, by simp [collectParams]⟩
  | cons a rest ih =>
    intro valid p
    cases hx : getBlobXattr self a.key with
    | none =>
      obtain ⟨q, hq⟩ := ih false p
      refine ⟨q, ?_⟩
      cases a <;> simp [collectParams, hx, hq]
    | some v =>
      obtain ⟨q, hq⟩ := ih valid (applyAttr p a v)
      refine ⟨q, ?_⟩
      cases a <;> simp [collectParams, hx, hq]

/-- Claim C7: `snapshot_descriptor(None)` always returns a descriptor,
and its valid flag is false exactly when one of the six snapshot
xattrs is missing from the blob. -/
theorem snapshot_descriptor_total_valid (w : World) (self : Blob) :
    ∃ d, snapshot_descriptor w self none = some d
      ∧ (d.valid = false ↔ ∃ a ∈ snapXattrsAll, getBlobXattr self a.key = none) := by
  obtain ⟨q, hq⟩ :=
    collectParams_none_total self snapXattrsAll true defaultSnapshotParams
  cases hd : snapshot_descriptor w self none with
  | none =>
    exfalso
    unfold snapshot_descriptor at hd
    rw [hq] at hd
    simp at hd
  | some d =>
    refine ⟨d, rfl, ?_⟩
    unfold snapshot_descriptor at hd
    rw [hq] at hd
    simp only [Option.some.injEq] at hd
    have hvalid : d.valid =
        snapXattrsAll.all (fun a => (getBlobXattr self a.key).isSome) := by
      rw [← hd]
      simp
    rw [hvalid]
    constructor
    · intro hfalse
      by_contra hnone
      push_neg at hnone
      have : snapXattrsAll.all (fun a => (getBlobXattr self a.key).isSome) = true := by
        rw [List.all_eq_true]
        intro a ha
        cases hcase : getBlobXattr self a.key with
        | none => exact absurd hcase (hnone a ha)
        | some v => simp [hcase]
      rw [this] at hfalse
      cases hfalse
    · intro ⟨a, ha, hnone⟩
      by_contra htrue
      rw [Bool.not_eq_false] at htrue
      rw [List.all_eq_true] at htrue
      have := htrue a ha
      rw [hnone] at this
      cases this

/-- Claim C5 counterexample: with all other fields non-empty but an
empty `snap_uuid`, `prepare_snap_config` succeeds (it records no
snapshot uuid) instead of returning `None` as the claim states. -/
theorem prepare_snap_config_empty_uuid_counterexample :
    (prepare_snap_config "v1" "snap" "ent" "txn" "" "now").isSome = true := by
  decide

/-- Claim C5 (amended): an empty `snap_name`, `entity_id` or `txn_id`
makes `prepare_snap_config` return `None`; an empty `snap_uuid` is
accepted and recorded as absent, and the backend is still protected
because `prepare_snapshot_xattrs` then fails with the field-specific
config error before any backend call. -/
theorem prepare_snap_config_empty_fields (selfUuid n e t su now : String) :
    ((n.isEmpty = true ∨ e.isEmpty = true ∨ t.isEmpty = true) →
      prepare_snap_config selfUuid n e t su now = none)
    ∧ (n.isEmpty = false → e.isEmpty = false → t.isEmpty = false →
        su.isEmpty = true →
        ∃ p, prepare_snap_config selfUuid n e t su now = some p
          ∧ p.snapshot_uuid = none
          ∧ ∀ bdevName, prepare_snapshot_xattrs bdevName p =
              Except.error
                (LvsErr.SnapshotConfigFailed bdevName "snapshot_uuid not provided")) := by
  constructor
  · intro h
    rcases h with h | h | h <;> simp [prepare_snap_config, h]
  · intro hn he ht hsu
    refine ⟨{ entity_id := some e, parent_id := some selfUuid, txn_id := some t,
              snapName := some n, snapshot_uuid := none, create_time := some now,
              discarded := false }, ?_, rfl, ?_⟩
    · simp [prepare_snap_config, hn, he, ht, hsu]
    · intro bdevName
      rfl

/-- Claim C5 witness: an empty name fails construction; an empty
snapshot uuid yields parameters whose snapshot uuid is absent. -/
theorem prepare_snap_config_empty_fields_witness :
    prepare_snap_config "v1" "" "en" "tn" "uu" "nw" = none
    ∧ ∃ p, prepare_snap_config "v1" "sn" "en" "tn" "" "nw" = some p
        ∧ p.snapshot_uuid = none := by
  refine ⟨(prepare_snap_config_empty_fields "v1" "" "en" "tn" "uu" "nw").1
    (Or.inl (by decide)), ?_⟩
  obtain ⟨p, hp, hu, _⟩ :=
    (prepare_snap_config_empty_fields "v1" "sn" "en" "tn" "" "nw").2
      (by decide) (by decide) (by decide) (by decide)
  exact ⟨p, hp, hu⟩

/-- Claim C6: on a world where the vanished parent is "p", a snapshot
whose own `ParentId` is "q" is nevertheless part of the wildcard
initial sweep set, because the source's closure reads the originating
lvol's `ParentId` (always "p") instead of the candidate's. -/
theorem wildcard_initial_set_bug :
    sOtherBlob ∈ wildcardInitialSnapshots wWild sOrigBlob "p"
    ∧ getBlobXattr sOtherBlob SnapXattr.ParentId.key = some "q"
    ∧ ("q" : String) ≠ "p" := by
  decide

/-- Updating a key in an association list makes the key read back the
new value. -/
theorem lookupAssoc_setAssoc (xs : List (String × String)) (k v : String) :
    lookupAssoc (setAssoc xs k v) k = some v := by
  induction xs with
  | nil => simp [setAssoc, lookupAssoc]
  | cons h t ih =>
    rcases h with ⟨k', v'⟩
    cases hk : (k' == k) with
    | true => simp [setAssoc, hk, lookupAssoc]
    | false => simp [setAssoc, hk, lookupAssoc, ih]

/-- Any uuid-preserving transformation of the registry commutes with
the uuid lookup. -/
theorem findByUuid_map_uuid_preserving (g : Blob → Blob)
    (hg : ∀ b, (g b).uuid = b.uuid) (l : List Blob) (u : String) :
    findByUuid (l.map g) u = (findByUuid l u).map g := by
  induction l with
  | nil => rfl
  | cons a t ih =>
    cases ha : (a.uuid == u) with
    | true =>
      have hga : ((g a).uuid == u) = true := by rw [hg]; exact ha
      simp only [List.map_cons, findByUuid, hga, ha]
      simp
    | false =>
      have hga : ((g a).uuid == u) = false := by rw [hg]; exact ha
      simp only [List.map_cons, findByUuid, hga, ha]
      simp [ih]

/-- A member of the registry is found by its uuid. -/
theorem findByUuid_isSome_of_mem (self : Blob) (l : List Blob) (h : self ∈ l) :
    (findByUuid l self.uuid).isSome = true := by
  induction l with
  | nil => cases h
  | cons a t ih =>
    cases ha : (a.uuid == self.uuid) with
    | true => simp [findByUuid, ha]
    | false =>
      simp only [findByUuid, ha]
      rcases List.mem_cons.mp h with h1 | h2
      · subst h1
        simp at ha
      · simpa using ih h2

/-- Whatever the uuid lookup finds carries that uuid. -/
theorem findByUuid_some_uuid (u : String) (l : List Blob) (b : Blob)
    (h : findByUuid l u = some b) : (b.uuid == u) = true := by
  induction l with
  | nil => cases h
  | cons a t ih =>
    cases ha : (a.uuid == u) with
    | true =>
      simp only [findByUuid, ha, if_pos] at h
      cases h
      exact ha
    | false =>
      simp only [findByUuid, ha] at h
      simp at h
      exact ih h

/-- After filtering a uuid out, that uuid is no longer found. -/
theorem findByUuid_filter_ne_none (u : String) (l : List Blob) :
    findByUuid (l.filter (fun b => !(b.uuid == u))) u = none := by
  induction l with
  | nil => rfl
  | cons a t ih =>
    cases ha : (a.uuid == u) with
    | true => simp [List.filter_cons, ha, ih]
    | false => simp [List.filter_cons, findByUuid, ha, ih]

/-- Claim C1: `destroy_snapshot` on a snapshot with at least one live
clone marks it discarded (sync xattr write of "true", recorded in the
durable-write log) and keeps the blob in the registry; with zero live
clones the blob is destroyed immediately. -/
theorem destroy_snapshot_clone_guard (w : World) (self : Blob)
    (hmem : self ∈ w.blobs) :
    ((list_clones_by_snapshot_uuid w self).isEmpty = false →
      (destroy_snapshot w self).2 = DestroySnapAction.discardedMarked
      ∧ (∃ b', lookupBlob (destroy_snapshot w self).1 self.uuid = some b'
          ∧ getBlobXattr b' SnapXattr.DiscardedSnapshot.key = some "true")
      ∧ (self.uuid, SnapXattr.DiscardedSnapshot.key, "true")
          ∈ (destroy_snapshot w self).1.syncLog)
    ∧ ((list_clones_by_snapshot_uuid w self).isEmpty = true →
        (destroy_snapshot w self).2 = DestroySnapAction.destroyedBlob
        ∧ lookupBlob (destroy_snapshot w self).1 self.uuid = none) := by
  constructor
  · intro h
    have hds : destroy_snapshot w self =
        (set_blob_attr w self.uuid SnapXattr.DiscardedSnapshot.key "true" true,
         DestroySnapAction.discardedMarked) := by
      simp [destroy_snapshot, h]
    refine ⟨by rw [hds], ?_, by rw [hds]; simp [set_blob_attr]⟩
    rw [hds]
    unfold lookupBlob set_blob_attr
    simp only
    rw [findByUuid_map_uuid_preserving (fun b => if b.uuid == self.uuid then { b with xattrs := setAssoc b.xattrs SnapXattr.DiscardedSnapshot.key "true" } else b) (by intro b; cases hb : (b.uuid == self.uuid) <;> simp [hb])]
    obtain ⟨b0, hb0⟩ := Option.isSome_iff_exists.mp
      (findByUuid_isSome_of_mem self w.blobs hmem)
    rw [hb0]
    have hpb0 : (b0.uuid == self.uuid) = true :=
      findByUuid_some_uuid self.uuid w.blobs b0 hb0
    refine ⟨_, rfl, ?_⟩
    simp [hpb0, getBlobXattr, lookupAssoc_setAssoc]
  · intro h
    have hds : destroy_snapshot w self =
        (destroyLvol w self.uuid, DestroySnapAction.destroyedBlob) := by
      simp [destroy_snapshot, h]
    refine ⟨by rw [hds], ?_⟩
    rw [hds]
    unfold lookupBlob destroyLvol
    simp only
    exact findByUuid_filter_ne_none self.uuid w.blobs

/-- Cache resets leave the registry untouched. -/
theorem foldl_resetCache_blobs (l : List Blob) :
    ∀ w : World, ((l.foldl (fun acc c => resetCache acc c.uuid) w).blobs = w.blobs) := by
  induction l with
  | nil => intro w; rfl
  | cons a t ih => intro w; exact ih (resetCache w a.uuid)

/-- The chain-walk cache reset leaves the registry untouched. -/
theorem resetTreeParentLoop_blobs (fuel : Nat) :
    ∀ (w : World) (it : SnapIter), (resetTreeParentLoop w fuel it).blobs = w.blobs := by
  induction fuel with
  | zero => intro w it; rfl
  | succ n ih =>
    intro w it
    unfold resetTreeParentLoop
    cases iterParent w it with
    | none => rfl
    | some p =>
      rcases p with ⟨d, it'⟩
      simp only
      rw [ih]
      rw [foldl_resetCache_blobs]
      rfl

/-- One wildcard step leaves the registry untouched. -/
theorem wildcardStep_blobs (w : World) (snaps clones : List Blob) :
    (wildcardStep w snaps clones).1.blobs = w.blobs := by
  unfold wildcardStep
  cases popLast snaps with
  | none =>
    simp only
    cases popLast clones with
    | none => rfl
    | some pc => rcases pc with ⟨c, rest⟩; rfl
  | some ps =>
    rcases ps with ⟨s, rest⟩
    simp only
    cases popLast (clones ++ list_clones_by_snapshot_uuid (resetCache w s.uuid) s) with
    | none => rfl
    | some pc => rcases pc with ⟨c, rest2⟩; rfl

/-- The wildcard loop leaves the registry untouched. -/
theorem wildcardLoop_blobs (fuel : Nat) :
    ∀ (w : World) (snaps clones : List Blob),
      (wildcardLoop fuel w snaps clones).blobs = w.blobs := by
  induction fuel with
  | zero => intro w snaps clones; rfl
  | succ n ih =>
    intro w snaps clones
    unfold wildcardLoop
    by_cases hdone : (snaps.isEmpty && clones.isEmpty) = true
    · simp [hdone]
    · rw [if_neg hdone]
      cases hstep : wildcardStep w snaps clones with
      | mk w' rest =>
        rcases rest with ⟨s', c'⟩
        have := wildcardStep_blobs w snaps clones
        rw [hstep] at this
        rw [ih]
        exact this

/-- The tree-cache reset leaves the registry untouched. -/
theorem reset_tree_blobs (fuel : Nat) (w : World) (self : Blob) (isReplica : Bool) :
    (reset_snapshot_tree_usage_cache fuel w self isReplica).blobs = w.blobs := by
  unfold reset_snapshot_tree_usage_cache
    reset_snapshot_tree_usage_cache_with_parent_uuid
    reset_snapshot_tree_usage_cache_with_wildcard
  by_cases hr : isReplica = true
  · simp [hr, resetTreeParentLoop_blobs]
  · rw [if_neg hr]
    cases getBlobXattr self SnapXattr.ParentId.key with
    | none => rfl
    | some parentUuid =>
      simp only
      cases lookupBlob w parentUuid with
      | some bdev =>
        simp only
        by_cases hd : (bdev.driver == "lvol") = true
        · simp [hd, resetTreeParentLoop_blobs, resetCache]
        · simp [hd]
      | none =>
        simp only
        rw [wildcardLoop_blobs]

/-- The reset phase of the sweep leaves the registry untouched. -/
theorem foldl_reset_tree_blobs (fuel : Nat) (l : List Blob) :
    ∀ w : World,
      ((l.foldl (fun acc s => reset_snapshot_tree_usage_cache fuel acc s false) w).blobs
        = w.blobs) := by
  induction l with
  | nil => intro w; rfl
  | cons s t ih =>
    intro w
    rw [List.foldl_cons, ih, reset_tree_blobs]

/-- The destroy phase removes exactly the listed uuids whose destroy
succeeds. -/
theorem destroyFold_blobs (env : SweepEnv) (l : List Blob) :
    ∀ w : World,
      ((l.foldl (fun acc s =>
          if env.destroyOk s.uuid then destroyLvol acc s.uuid else acc) w).blobs
        = w.blobs.filter (fun b =>
            !(l.any (fun s => env.destroyOk s.uuid && s.uuid == b.uuid)))) := by
  induction l with
  | nil => intro w; simp
  | cons s t ih =>
    intro w
    cases hok : env.destroyOk s.uuid with
    | false =>
      simp only [List.foldl_cons, hok, Bool.false_eq_true, if_false]
      rw [ih]
      apply List.filter_congr
      intro b _
      simp [hok]
    | true =>
      simp only [List.foldl_cons, hok, if_true]
      rw [ih]
      show ((destroyLvol w s.uuid).blobs.filter _) = _
      unfold destroyLvol
      simp only
      rw [List.filter_filter]
      apply List.filter_congr
      intro b _
      have hsym : (s.uuid == b.uuid) = (b.uuid == s.uuid) := by
        cases hb : (b.uuid == s.uuid) with
        | true =>
          have : b.uuid = s.uuid := by simpa using hb
          simp [this]
        | false =>
          have : ¬ (b.uuid = s.uuid) := by simpa using hb
          simp [beq_iff_eq]
          exact fun he => this he.symm
      simp [List.any_cons, hok, hsym, Bool.not_or, Bool.and_comm]

/-- The registry after the sweep: survivors are exactly the blobs not
matched by a successfully destroyed selected snapshot. -/
theorem sweep_blobs_eq (fuel : Nat) (env : SweepEnv) (w : World) :
    (destroy_pending_discarded_snapshot fuel env w).blobs
      = w.blobs.filter (fun b =>
          !((snapListOf w).any (fun s => env.destroyOk s.uuid && s.uuid == b.uuid))) := by
  unfold destroy_pending_discarded_snapshot
  simp only
  rw [destroyFold_blobs]
  rw [foldl_reset_tree_blobs]

/-- With nothing selected, the sweep is a no-op. -/
theorem sweep_noop (fuel : Nat) (env : SweepEnv) (w : World)
    (h : snapListOf w = []) :
    destroy_pending_discarded_snapshot fuel env w = w := by
  simp [destroy_pending_discarded_snapshot, h]

/-- The registry lookup reads the world only through its registry. -/
theorem lookupBlob_congr (w1 w2 : World) (h : w1.blobs = w2.blobs) :
    ∀ u, lookupBlob w1 u = lookupBlob w2 u := by
  intro u
  unfold lookupBlob
  rw [h]

/-- The clone listing reads the world only through its registry. -/
theorem list_clones_congr (w1 w2 : World) (h : w1.blobs = w2.blobs) :
    ∀ self, list_clones_by_snapshot_uuid w1 self
      = list_clones_by_snapshot_uuid w2 self := by
  intro self
  unfold list_clones_by_snapshot_uuid lvolDevices
  rw [h]

/-- The descriptor builder reads the world only through its registry. -/
theorem snapshot_descriptor_congr (w1 w2 : World) (h : w1.blobs = w2.blobs) :
    ∀ self parent, snapshot_descriptor w1 self parent
      = snapshot_descriptor w2 self parent := by
  intro self parent
  unfold snapshot_descriptor lookupBlob list_clones_by_snapshot_uuid lvolDevices
  rw [h]

/-- The chain iterator reads the world only through its registry. -/
theorem iterParent_congr (w1 w2 : World) (h : w1.blobs = w2.blobs) :
    ∀ it, iterParent w1 it = iterParent w2 it := by
  intro it
  unfold iterParent bsIterParent lookupBlob
  simp only [h, snapshot_descriptor_congr w1 w2 h]

/-- The snapshot listing reads the world only through its registry. -/
theorem list_all_snapshots_congr (w1 w2 : World) (h : w1.blobs = w2.blobs) :
    ∀ parent, list_all_snapshots w1 parent = list_all_snapshots w2 parent := by
  intro parent
  unfold list_all_snapshots lvolDevices
  simp only [h, snapshot_descriptor_congr w1 w2 h]

/-- The wildcard initial set reads the world only through its
registry. -/
theorem wildcardInitial_congr (w1 w2 : World) (h : w1.blobs = w2.blobs) :
    ∀ lvol parentUuid, wildcardInitialSnapshots w1 lvol parentUuid
      = wildcardInitialSnapshots w2 lvol parentUuid := by
  intro lvol parentUuid
  unfold wildcardInitialSnapshots
  simp only [list_all_snapshots_congr w1 w2 h]

/-- Per-clone cache resets log exactly the clone uuids, newest
first. -/
theorem foldl_resetCache_inv (l : List Blob) :
    ∀ w : World, ((l.foldl (fun acc c => resetCache acc c.uuid) w).invalidated
      = (l.map (fun c => c.uuid)).reverse ++ w.invalidated) := by
  induction l with
  | nil => intro w; simp
  | cons a t ih =>
    intro w
    rw [List.foldl_cons, ih]
    simp [resetCache]

/-- The chain-walk reset logs exactly its pure invalidation trace. -/
theorem resetTreeParentLoop_inv (fuel : Nat) :
    ∀ (w : World) (it : SnapIter),
      (resetTreeParentLoop w fuel it).invalidated
        = resetTreeParentLoopInv w.blobs fuel it ++ w.invalidated := by
  induction fuel with
  | zero => intro w it; rfl
  | succ n ih =>
    intro w it
    unfold resetTreeParentLoop resetTreeParentLoopInv
    rw [iterParent_congr (worldOf w.blobs) w rfl it]
    cases hstep : iterParent w it with
    | none => simp
    | some p =>
      rcases p with ⟨d, it'⟩
      simp only
      rw [ih]
      rw [foldl_resetCache_blobs, foldl_resetCache_inv]
      rw [list_clones_congr (resetCache w d.snapshot_lvol.uuid) (worldOf w.blobs)
        rfl d.snapshot_lvol]
      simp [resetCache]

/-- One wildcard step logs exactly its pure invalidation trace and
computes the same successor work lists. -/
theorem wildcardStep_inv (w : World) (snaps clones : List Blob) :
    (wildcardStep w snaps clones).1.invalidated
        = (wildcardStepInv w.blobs snaps clones).1 ++ w.invalidated
      ∧ (wildcardStep w snaps clones).2 = (wildcardStepInv w.blobs snaps clones).2 := by
  unfold wildcardStep wildcardStepInv
  cases hp : popLast snaps with
  | none =>
    simp only
    cases hq : popLast clones with
    | none => exact ⟨rfl, rfl⟩
    | some pc =>
      rcases pc with ⟨c, rest⟩
      simp only
      refine ⟨rfl, ?_⟩
      rw [list_all_snapshots_congr (resetCache w c.uuid) (worldOf w.blobs) rfl]
  | some ps =>
    rcases ps with ⟨s, rest⟩
    simp only
    rw [list_clones_congr (resetCache w s.uuid) (worldOf w.blobs) rfl s]
    cases hq : popLast (clones ++ list_clones_by_snapshot_uuid (worldOf w.blobs) s) with
    | none => exact ⟨rfl, rfl⟩
    | some pc =>
      rcases pc with ⟨c, rest2⟩
      simp only
      refine ⟨rfl, ?_⟩
      rw [list_all_snapshots_congr (resetCache (resetCache w s.uuid) c.uuid)
        (worldOf w.blobs) rfl]

/-- The wildcard loop logs exactly its pure invalidation trace. -/
theorem wildcardLoop_inv (fuel : Nat) :
    ∀ (w : World) (snaps clones : List Blob),
      (wildcardLoop fuel w snaps clones).invalidated
        = wildcardLoopInv w.blobs fuel snaps clones ++ w.invalidated := by
  induction fuel with
  | zero => intro w snaps clones; rfl
  | succ n ih =>
    intro w snaps clones
    unfold wildcardLoop wildcardLoopInv
    by_cases hdone : (snaps.isEmpty && clones.isEmpty) = true
    · simp [hdone]
    · rw [if_neg hdone, if_neg hdone]
      have hstep := wildcardStep_inv w snaps clones
      cases hw : wildcardStep w snaps clones with
      | mk w' rest =>
        rcases rest with ⟨s', c'⟩
        cases hv : wildcardStepInv w.blobs snaps clones with
        | mk inv1 rest2 =>
          rcases rest2 with ⟨s'', c''⟩
          rw [hw, hv] at hstep
          simp only [Prod.mk.injEq] at hstep
          obtain ⟨hinv, hs, hc⟩ := hstep
          subst hs
          subst hc
          simp only
          rw [ih w' s' c']
          have hb : w'.blobs = w.blobs := by
            have hfr := wildcardStep_blobs w snaps clones
            rw [hw] at hfr
            exact hfr
          rw [hb, hinv]
          simp

/-- The tree reset logs exactly its pure invalidation trace. -/
theorem reset_tree_inv (fuel : Nat) (w : World) (self : Blob) (isReplica : Bool) :
    (reset_snapshot_tree_usage_cache fuel w self isReplica).invalidated
      = resetTreeInv w.blobs fuel self isReplica ++ w.invalidated := by
  unfold reset_snapshot_tree_usage_cache
    reset_snapshot_tree_usage_cache_with_parent_uuid
    reset_snapshot_tree_usage_cache_with_wildcard
    resetTreeInv lookupBlob
  by_cases hr : isReplica = true
  · simp only [hr, if_true]
    rw [resetTreeParentLoop_inv]
  · rw [if_neg hr, if_neg hr]
    cases hx : getBlobXattr self SnapXattr.ParentId.key with
    | none => simp
    | some parentUuid =>
      simp only
      cases hfind : findByUuid w.blobs parentUuid with
      | some bdev =>
        simp only
        by_cases hd : (bdev.driver == "lvol") = true
        · simp only [hd, if_true]
          rw [resetTreeParentLoop_inv]
          simp [resetCache]
        · simp [hd]
      | none =>
        simp only
        rw [wildcardLoop_inv]
        rw [wildcardInitial_congr w (worldOf w.blobs) rfl]

/-- The destroy phase never touches the invalidated-cache log. -/
theorem destroyFold_invalidated (env : SweepEnv) (l : List Blob) :
    ∀ w : World,
      ((l.foldl (fun acc s =>
          if env.destroyOk s.uuid then destroyLvol acc s.uuid else acc) w).invalidated
        = w.invalidated) := by
  induction l with
  | nil => intro w; rfl
  | cons s t ih =>
    intro w
    rw [List.foldl_cons, ih]
    cases hok : env.destroyOk s.uuid <;> simp [hok, destroyLvol]

/-- The reset phase of the sweep logs exactly the per-snapshot tree
invalidations, in order. -/
theorem foldl_reset_tree_inv (fuel : Nat) (l : List Blob) :
    ∀ w : World,
      ((l.foldl (fun acc s =>
          reset_snapshot_tree_usage_cache fuel acc s false) w).invalidated
        = treeResetFoldInv w.blobs fuel l ++ w.invalidated) := by
  induction l with
  | nil => intro w; rfl
  | cons s t ih =>
    intro w
    rw [List.foldl_cons, ih, reset_tree_blobs, reset_tree_inv]
    have hdef : treeResetFoldInv w.blobs fuel (s :: t)
        = treeResetFoldInv w.blobs fuel t ++ resetTreeInv w.blobs fuel s false := rfl
    rw [hdef]
    simp

/-- The sweep's invalidated-cache log is exactly the tree
invalidations of the selected snapshots, prepended to the prior log. -/
theorem sweep_invalidated_eq (fuel : Nat) (env : SweepEnv) (w : World) :
    (destroy_pending_discarded_snapshot fuel env w).invalidated
      = treeResetFoldInv w.blobs fuel (snapListOf w) ++ w.invalidated := by
  unfold destroy_pending_discarded_snapshot
  simp only
  rw [destroyFold_invalidated, foldl_reset_tree_inv]

/-- A selected snapshot's tree invalidations are contained in the
fold over any selection list containing it. -/
theorem resetTreeInv_subset_fold (blobs : List Blob) (fuel : Nat) (s : Blob) :
    ∀ l : List Blob, s ∈ l → ∀ u, u ∈ resetTreeInv blobs fuel s false →
      u ∈ treeResetFoldInv blobs fuel l := by
  intro l
  induction l with
  | nil => intro h; cases h
  | cons a t ih =>
    intro h u hu
    unfold treeResetFoldInv
    rcases List.mem_cons.mp h with h1 | h2
    · subst h1
      exact List.mem_append_right _ hu
    · exact List.mem_append_left _ (ih h2 u hu)

/-- Membership in a snapshot's clone list, spelled out. -/
theorem mem_clones_iff (w : World) (self c : Blob) :
    c ∈ list_clones_by_snapshot_uuid w self ↔
      c ∈ w.blobs ∧ c.driver = "lvol" ∧ c.sourceSnapUuid = some self.uuid := by
  unfold list_clones_by_snapshot_uuid lvolDevices
  constructor
  · intro h
    have h1 := List.mem_filter.mp h
    have h2 := List.mem_filter.mp h1.1
    refine ⟨h2.1, by simpa using h2.2, ?_⟩
    have h3 := h1.2
    simp only [isSnapshotClone] at h3
    cases hs : c.sourceSnapUuid with
    | none => rw [hs] at h3; cases h3
    | some u =>
      rw [hs] at h3
      simp only at h3
      have : u = self.uuid := by simpa using h3
      rw [this]
  · intro h
    obtain ⟨hcw, hdr, hsu⟩ := h
    apply List.mem_filter.mpr
    refine ⟨List.mem_filter.mpr ⟨hcw, by simp [hdr]⟩, ?_⟩
    simp only [isSnapshotClone, hsu]
    simp

/-- Membership in the sweep's selection, spelled out. -/
theorem mem_snapListOf_iff (w : World) (b : Blob) :
    b ∈ snapListOf w ↔
      b ∈ w.blobs ∧ b.driver = "lvol" ∧ b.isSnapshot = true
        ∧ is_discarded_snapshot b = true
        ∧ list_clones_by_snapshot_uuid w b = [] := by
  unfold snapListOf lvolDevices
  constructor
  · intro h
    have h1 := List.mem_filter.mp h
    have h2 := List.mem_filter.mp h1.1
    have h3 := h1.2
    simp only [Bool.and_eq_true] at h3
    refine ⟨h2.1, by simpa using h2.2, h3.1.1, h3.1.2, ?_⟩
    exact List.isEmpty_iff.mp h3.2
  · intro h
    obtain ⟨hw, hd, hs, hdisc, hcl⟩ := h
    apply List.mem_filter.mpr
    refine ⟨List.mem_filter.mpr ⟨hw, by simp [hd]⟩, ?_⟩
    simp [hs, hdisc, hcl]

/-- Claim C3: the pending-discarded sweep selects exactly the lvols
that are snapshots, marked discarded and clone-free; its
invalidated-cache log is exactly the per-selected-snapshot tree
invalidations in selection order (so the tree usage cache of each
selected snapshot is reset, and in particular every cache entry that
`reset_snapshot_tree_usage_cache` would invalidate for a selected
snapshot is invalidated by the sweep); it then destroys all selected
snapshots, an individual destroy failure removing only that blob from
the removal set without aborting the rest (the function is total and
never errors); an empty selection makes it a no-op; and with distinct
uuids, mutually exclusive snapshot/clone classes, and all destroys
succeeding, a second sweep with no new discarded snapshots changes
nothing. -/
theorem pending_discarded_sweep (fuel : Nat) (env : SweepEnv) (w : World) :
    ((destroy_pending_discarded_snapshot fuel env w).blobs
        = w.blobs.filter (fun b =>
            !((snapListOf w).any (fun s => env.destroyOk s.uuid && s.uuid == b.uuid))))
    ∧ ((destroy_pending_discarded_snapshot fuel env w).invalidated
        = treeResetFoldInv w.blobs fuel (snapListOf w) ++ w.invalidated)
    ∧ (∀ s ∈ snapListOf w, ∀ u,
        u ∈ (reset_snapshot_tree_usage_cache fuel w s false).invalidated →
        u ∈ (destroy_pending_discarded_snapshot fuel env w).invalidated)
    ∧ (snapListOf w = [] → destroy_pending_discarded_snapshot fuel env w = w)
    ∧ ((w.blobs.map (fun b => b.uuid)).Nodup →
        (∀ u, env.destroyOk u = true) →
        (∀ b ∈ w.blobs, b.sourceSnapUuid = none ∨ b.isSnapshot = false) →
        destroy_pending_discarded_snapshot fuel env
            (destroy_pending_discarded_snapshot fuel env w)
          = destroy_pending_discarded_snapshot fuel env w) := by
  refine ⟨sweep_blobs_eq fuel env w, sweep_invalidated_eq fuel env w, ?_,
    sweep_noop fuel env w, ?_⟩
  · intro s hs u hu
    rw [reset_tree_inv] at hu
    rw [sweep_invalidated_eq]
    rcases List.mem_append.mp hu with h1 | h2
    · exact List.mem_append_left _
        (resetTreeInv_subset_fold w.blobs fuel s (snapListOf w) hs u h1)
    · exact List.mem_append_right _ h2
  intro hN hok hX
  apply sweep_noop
  have hblobs := sweep_blobs_eq fuel env w
  rw [List.eq_nil_iff_forall_not_mem]
  intro b hb
  rw [mem_snapListOf_iff] at hb
  obtain ⟨hbw', hbdrv, hbsnap, hbdisc, hbclones⟩ := hb
  rw [hblobs] at hbw'
  have hbw := List.mem_filter.mp hbw'
  have hinj := List.inj_on_of_nodup_map hN
  have hnot : ∀ s ∈ snapListOf w, s.uuid ≠ b.uuid := by
    intro s hs heq
    have hany : ((snapListOf w).any
        (fun s => env.destroyOk s.uuid && s.uuid == b.uuid)) = true :=
      List.any_eq_true.mpr ⟨s, hs, by simp [hok, heq]⟩
    have hpred := hbw.2
    rw [hany] at hpred
    simp at hpred
  have hclw : list_clones_by_snapshot_uuid w b = [] := by
    rw [List.eq_nil_iff_forall_not_mem]
    intro c hc
    rw [mem_clones_iff] at hc
    obtain ⟨hcw, hcd, hcsu⟩ := hc
    rcases hX c hcw with hnone | hnsnap
    · rw [hnone] at hcsu; cases hcsu
    · have hanyf : ((snapListOf w).any
          (fun s => env.destroyOk s.uuid && s.uuid == c.uuid)) = false := by
        cases hany : ((snapListOf w).any
            (fun s => env.destroyOk s.uuid && s.uuid == c.uuid)) with
        | false => rfl
        | true =>
          obtain ⟨s, hs, hcond⟩ := List.any_eq_true.mp hany
          simp only [Bool.and_eq_true] at hcond
          have heq : s.uuid = c.uuid := by simpa using hcond.2
          have hsmem := (mem_snapListOf_iff w s).mp hs
          have hsc : s = c := hinj hsmem.1 hcw heq
          have hcsnap : c.isSnapshot = true := hsc ▸ hsmem.2.2.1
          rw [hnsnap] at hcsnap
          cases hcsnap
      have hcw' : c ∈ (destroy_pending_discarded_snapshot fuel env w).blobs := by
        rw [hblobs]
        exact List.mem_filter.mpr ⟨hcw, by simp [hanyf]⟩
      have hcmem : c ∈ list_clones_by_snapshot_uuid
          (destroy_pending_discarded_snapshot fuel env w) b :=
        (mem_clones_iff _ b c).mpr ⟨hcw', hcd, hcsu⟩
      rw [hbclones] at hcmem
      cases hcmem
  have hbmem : b ∈ snapListOf w :=
    (mem_snapListOf_iff w b).mpr ⟨hbw.1, hbdrv, hbsnap, hbdisc, hclw⟩
  exact hnot b hbmem rfl

/-- Claim C3 witness: on a world with one discarded clone-free
snapshot whose parent "vp" exists, the sweep removes exactly the
snapshot, resets the cache of the parent's tree (invalidated log
["vp"]), and sweeping again is a no-op. -/
theorem pending_discarded_sweep_witness :
    ((destroy_pending_discarded_snapshot 3 envAllOk wDisc).blobs
        = wDisc.blobs.filter (fun b =>
            !((snapListOf wDisc).any
              (fun s => envAllOk.destroyOk s.uuid && s.uuid == b.uuid))))
    ∧ (destroy_pending_discarded_snapshot 3 envAllOk wDisc).invalidated
        = treeResetFoldInv wDisc.blobs 3 (snapListOf wDisc) ++ wDisc.invalidated
    ∧ (destroy_pending_discarded_snapshot 3 envAllOk wDisc).invalidated = ["vp"]
    ∧ destroy_pending_discarded_snapshot 3 envAllOk
        (destroy_pending_discarded_snapshot 3 envAllOk wDisc)
      = destroy_pending_discarded_snapshot 3 envAllOk wDisc := by
  have h := pending_discarded_sweep 3 envAllOk wDisc
  exact ⟨h.1, h.2.1, by decide, h.2.2.2.2 (by decide) (fun u => rfl) (by decide)⟩

/-- Claim C1 witness: with the pinning clone present the snapshot is
marked discarded; alone it is destroyed and vanishes from the
registry. -/
theorem destroy_snapshot_clone_guard_witness :
    ((destroy_snapshot wClone snapABlob).2 = DestroySnapAction.discardedMarked)
    ∧ ((destroy_snapshot wLone snapABlob).2 = DestroySnapAction.destroyedBlob
        ∧ lookupBlob (destroy_snapshot wLone snapABlob).1 snapABlob.uuid = none) := by
  have h1 := (destroy_snapshot_clone_guard wClone snapABlob (by decide)).1 (by decide)
  have h2 := (destroy_snapshot_clone_guard wLone snapABlob (by decide)).2 (by decide)
  exact ⟨h1.1, h2.1, h2.2⟩
